import Mathlib

/-!
Shallow embedding of `src/lib.rs` (ink! contract `voting_contract`), a minimal
on-ledger governance engine.  External collaborators are passed as explicit
parameters:
  * the block timestamp (`now : Timestamp`) is read once per call;
  * the PSP22 balance oracle is a function `balance_of : AccountId → AccountId → Balance`
    (token address, account) — `PSP22Ref::balance_of`;
  * the outcome of `self.env().transfer` is a boolean `transfer_ok` saying whether
    the transfer, if attempted, succeeds.
Machine integers are modelled as `Nat`; the only place where width matters in the
source is the `balance as u8` cast in `account_weight`, modelled as `% 256`.
A Rust `panic` (the `unwrap` on a missing `proposal_votes` entry) is modelled as
the `none` result of an `Option`-returning function.
-/

abbrev AccountId : Type := Nat
abbrev Balance : Type := Nat
abbrev Timestamp : Type := Nat
abbrev ProposalId : Type := Nat

/-- `pub const ONE_MINUTE: u64 = 60 * 1000;` (milliseconds). -/
def ONE_MINUTE : Nat := 60 * 1000

/-- `ink::storage::Mapping`, modelled as an association list (later inserts shadow
earlier ones, matching the overwrite semantics of `Mapping::insert`). -/
structure Mapping (V : Type) where
  entries : List (Nat × V)
deriving Repr, DecidableEq

/-- `Mapping::new` — the empty mapping. -/
def Mapping.new {V : Type} : Mapping V := ⟨[]⟩

/-- `Mapping::get` — `None` when the key is absent. -/
def Mapping.get {V : Type} (m : Mapping V) (k : Nat) : Option V :=
  (m.entries.find? (fun e => e.1 == k)).map (fun e => e.2)

/-- `Mapping::insert` — stores/overwrites the value at `k`. -/
def Mapping.insert {V : Type} (m : Mapping V) (k : Nat) (v : V) : Mapping V :=
  ⟨(k, v) :: m.entries⟩

/-- `enum GovernorError` from the source, all eight variants
(`VotePeriodEnded` is declared but never produced). -/
inductive GovernorError where
  | AmountShouldNotBeZero
  | DurationError
  | ProposalNotFound
  | ProposalAlreadyExecuted
  | VotePeriodEnded
  | VotePeriodNotEnded
  | TransferError
  | ProposalNotAccepted
deriving Repr, DecidableEq

/-- `struct Proposal` from the source. -/
structure Proposal where
  for_address : AccountId
  against_address : AccountId
  to_addr : AccountId
  title : String
  description : String
  amount : Balance
  vote_start : Timestamp
  vote_end : Timestamp
  executed : Bool
deriving Repr, DecidableEq

/-- `struct ProposalVote` from the source; both fields are `u8` (values `< 256`). -/
structure ProposalVote where
  against_votes : Nat
  for_votes : Nat
deriving Repr, DecidableEq

/-- The `#[ink(storage)]` struct `VotingContract`. -/
structure VotingContract where
  proposal_votes : Mapping ProposalVote
  proposals : Mapping Proposal
  next_proposal_id : Nat
  governance_token : AccountId
deriving Repr, DecidableEq

/-- The constructor `VotingContract::new`. -/
def VotingContract.new (token_address : AccountId) : VotingContract :=
  { proposal_votes := Mapping.new
    proposals := Mapping.new
    next_proposal_id := 0
    governance_token := token_address }

/-- `fn account_weight(&self, caller) -> u8`: queries
`PSP22Ref::balance_of(&self.governance_token, caller)` and casts `as u8`
(keeps the low 8 bits, i.e. the balance modulo 256). -/
def VotingContract.account_weight (self : VotingContract)
    (balance_of : AccountId → AccountId → Balance) (caller : AccountId) : Nat :=
  balance_of self.governance_token caller % 256

/-- The private `fn next_proposal_id(&mut self)`: returns the current counter and
increments it.  (Named `allocate_id` here because the Lean field accessor already
uses the source name.) -/
def VotingContract.allocate_id (self : VotingContract) : ProposalId × VotingContract :=
  (self.next_proposal_id, { self with next_proposal_id := self.next_proposal_id + 1 })

/-- `pub fn propose`: validates `amount` and `duration`, then inserts a new
`Proposal` at a freshly allocated id.  Returns the ink! message result together
with the post-state (`&mut self`). -/
def VotingContract.propose (self : VotingContract) (now : Timestamp)
    (for_address against_address to_addr : AccountId) (title description : String)
    (amount : Balance) (duration : Nat) :
    Except GovernorError Unit × VotingContract :=
  if amount = 0 then
    (Except.error GovernorError.AmountShouldNotBeZero, self)
  else if duration = 0 ∨ duration > 60 * ONE_MINUTE then
    (Except.error GovernorError.DurationError, self)
  else
    let proposal : Proposal :=
      { for_address := for_address
        against_address := against_address
        to_addr := to_addr
        title := title
        description := description
        amount := amount
        vote_start := now
        vote_end := now + duration * ONE_MINUTE
        executed := false }
    let alloc := self.allocate_id
    let self' := alloc.2
    (Except.ok (), { self' with proposals := self'.proposals.insert alloc.1 proposal })

/-- `pub fn execute`: the result is `none` when the call panics (the
`self.proposal_votes.get(proposal_id).unwrap()` on a missing key); otherwise
`some (result, post-state, transfers)`, where `transfers` lists every
`self.env().transfer(to, amount)` invocation the call attempted. -/
def VotingContract.execute (self : VotingContract) (now : Timestamp)
    (balance_of : AccountId → AccountId → Balance) (transfer_ok : Bool)
    (proposal_id : ProposalId) :
    Option (Except GovernorError Unit × VotingContract × List (AccountId × Balance)) :=
  match self.proposals.get proposal_id with
  | none => some (Except.error GovernorError.ProposalNotFound, self, [])
  | some proposal =>
    if proposal.executed then
      some (Except.error GovernorError.ProposalAlreadyExecuted, self, [])
    else if now < proposal.vote_end then
      some (Except.error GovernorError.VotePeriodNotEnded, self, [])
    else
      let weight_for := self.account_weight balance_of proposal.for_address
      let weight_against := self.account_weight balance_of proposal.against_address
      match self.proposal_votes.get proposal_id with
      | none => none
      | some pv0 =>
        let pv := { pv0 with for_votes := weight_for, against_votes := weight_against }
        if pv.against_votes ≥ pv.for_votes then
          some (Except.error GovernorError.ProposalNotAccepted, self, [])
        else
          let proposal' := { proposal with executed := true }
          if transfer_ok then
            some (Except.ok (),
              { self with proposals := self.proposals.insert proposal_id proposal' },
              [(proposal'.to_addr, proposal'.amount)])
          else
            some (Except.error GovernorError.TransferError, self,
              [(proposal'.to_addr, proposal'.amount)])

/-- `pub fn get_proposal_vote` (a `&self` message, so no post-state): the outer
`Option` is `none` when the call panics on the `proposal_votes` unwrap; the inner
`Option` is the Rust return value. -/
def VotingContract.get_proposal_vote (self : VotingContract)
    (balance_of : AccountId → AccountId → Balance) (proposal_id : ProposalId) :
    Option (Option ProposalVote) :=
  match self.proposals.get proposal_id with
  | none => some none
  | some proposal =>
    let weight_for := self.account_weight balance_of proposal.for_address
    let weight_against := self.account_weight balance_of proposal.against_address
    match self.proposal_votes.get proposal_id with
    | none => none
    | some pv0 =>
      some (some { pv0 with for_votes := weight_for, against_votes := weight_against })

/-- `pub fn get_proposal`. -/
def VotingContract.get_proposal (self : VotingContract) (proposal_id : ProposalId) :
    Option Proposal :=
  self.proposals.get proposal_id

/-- `pub fn get_proposals_size`. -/
def VotingContract.get_proposals_size (self : VotingContract) : ProposalId :=
  self.next_proposal_id

/-- A state-mutating public call (`propose` or `execute` are the only `&mut self`
messages; `get_proposal_vote`, `get_proposal` and `get_proposals_size` take
`&self` and cannot write).  Environment inputs are carried in the operation. -/
inductive Op where
  | propose (now : Timestamp) (for_address against_address to_addr : AccountId)
      (title description : String) (amount : Balance) (duration : Nat)
  | execute (now : Timestamp) (balance_of : AccountId → AccountId → Balance)
      (transfer_ok : Bool) (proposal_id : ProposalId)

/-- Post-state of one call.  A panicking `execute` (result `none`) traps and the
hosting chain reverts, leaving the state unchanged. -/
def step (s : VotingContract) : Op → VotingContract
  | Op.propose now fa aa t0 ti de amount duration =>
      (s.propose now fa aa t0 ti de amount duration).2
  | Op.execute now bal t_ok id =>
      match s.execute now bal t_ok id with
      | none => s
      | some (_, s2, _) => s2

/-- Folds a sequence of mutating calls over a starting state. -/
def applyOps (s : VotingContract) : List Op → VotingContract
  | [] => s
  | op :: ops => applyOps (step s op) ops

/-- Number of ids an operation allocates: 1 for a `propose` that passes the
`amount` and `duration` checks, 0 otherwise (validity depends only on the
arguments). -/
def Op.allocates : Op → Nat
  | Op.propose _ _ _ _ _ _ amount duration =>
      if amount ≠ 0 ∧ duration ≠ 0 ∧ duration ≤ 60 * ONE_MINUTE then 1 else 0
  | Op.execute _ _ _ _ => 0

/-- Total number of ids allocated along a trace. -/
def allocatedIds (ops : List Op) : Nat := (ops.map Op.allocates).sum

deriving instance DecidableEq for Except

/-- A reachable state: the constructor followed by one successful `propose`
(`amount = 100`, `duration = 10`, block time 0).  The allocated id is 0. -/
def exampleState : VotingContract :=
  ((VotingContract.new 0).propose 0 1 2 3 "t" "d" 100 10).2

/-- A concrete balance oracle: each account's balance is its own address. -/
def exampleOracle : AccountId → AccountId → Balance := fun _ a => a

/-- A balance oracle under which every account has balance 0. -/
def zeroOracle : AccountId → AccountId → Balance := fun _ _ => 0

/-- A reachable state whose proposal 0 samples the same address (1) for both
sides, so every tally of it is a tie. -/
def tieState : VotingContract :=
  ((VotingContract.new 0).propose 0 1 1 3 "t" "d" 100 1).2

/-- A reachable state with one proposal (id 0, `for_address = 1`,
`against_address = 2`, window one minute from time 0). -/
def acceptState : VotingContract :=
  ((VotingContract.new 0).propose 0 1 2 3 "t" "d" 100 1).2

/-- A concrete proposal used to exercise the non-panicking `execute` paths. -/
def demoProposal : Proposal :=
  { for_address := 1, against_address := 2, to_addr := 3, title := "t",
    description := "d", amount := 5, vote_start := 0, vote_end := 10, executed := false }

/-- A hand-built state whose vote-tracking record for id 0 is present (as §4.1 of
the spec prescribes `submit` should have ensured), so `execute` does not panic. -/
def demoState : VotingContract :=
  { proposal_votes := ⟨[(0, { against_votes := 0, for_votes := 0 })]⟩
    proposals := ⟨[(0, demoProposal)]⟩
    next_proposal_id := 1
    governance_token := 9 }

/-- A balance oracle giving account 1 balance 1 and everyone else balance 0. -/
def demoOracle : AccountId → AccountId → Balance := fun _ a => if a = 1 then 1 else 0

/-- Lookup after insert: the inserted key reads back the new value, any other key
is unaffected. -/
theorem Mapping.get_insert {V : Type} (m : Mapping V) (k : Nat) (v : V) (k' : Nat) :
    (m.insert k v).get k' = if k = k' then some v else m.get k' := by
  by_cases h : k = k'
  · subst h
    simp [Mapping.get, Mapping.insert, List.find?]
  · simp only [Mapping.get, Mapping.insert, List.find?, beq_eq_false_iff_ne.mpr h, if_neg h]

/-- `propose` with `amount = 0` fails with `AmountShouldNotBeZero` and leaves the
state unchanged. -/
theorem propose_amount_zero (s : VotingContract) (now : Timestamp)
    (fa aa t0 : AccountId) (ti de : String) (duration : Nat) :
    s.propose now fa aa t0 ti de 0 duration
      = (Except.error GovernorError.AmountShouldNotBeZero, s) := by
  unfold VotingContract.propose
  rw [if_pos rfl]

/-- `propose` with nonzero amount and out-of-range duration fails with
`DurationError` and leaves the state unchanged. -/
theorem propose_duration_err (s : VotingContract) (now : Timestamp)
    (fa aa t0 : AccountId) (ti de : String) (amount : Balance) (duration : Nat)
    (ha : amount ≠ 0) (hd : duration = 0 ∨ duration > 60 * ONE_MINUTE) :
    s.propose now fa aa t0 ti de amount duration
      = (Except.error GovernorError.DurationError, s) := by
  unfold VotingContract.propose
  rw [if_neg ha, if_pos hd]

/-- A validating `propose` inserts the new record at the current counter value and
increments the counter. -/
theorem propose_ok (s : VotingContract) (now : Timestamp)
    (fa aa t0 : AccountId) (ti de : String) (amount : Balance) (duration : Nat)
    (ha : amount ≠ 0) (hd : ¬(duration = 0 ∨ duration > 60 * ONE_MINUTE)) :
    s.propose now fa aa t0 ti de amount duration
      = (Except.ok (),
          { s with
              proposals := s.proposals.insert s.next_proposal_id
                { for_address := fa, against_address := aa, to_addr := t0, title := ti,
                  description := de, amount := amount, vote_start := now,
                  vote_end := now + duration * ONE_MINUTE, executed := false },
              next_proposal_id := s.next_proposal_id + 1 }) := by
  unfold VotingContract.propose VotingContract.allocate_id
  rw [if_neg ha, if_neg hd]

/-- `execute` on a present, unexecuted proposal after its window, with the
vote-tracking record present: what remains is the tally comparison and the
transfer. -/
theorem execute_ready (s : VotingContract) (now : Timestamp)
    (bal : AccountId → AccountId → Balance) (t_ok : Bool) (id : ProposalId)
    (p : Proposal) (pv : ProposalVote)
    (hp : s.proposals.get id = some p) (hex : p.executed = false)
    (ht : ¬ now < p.vote_end) (hv : s.proposal_votes.get id = some pv) :
    s.execute now bal t_ok id =
      if s.account_weight bal p.against_address ≥ s.account_weight bal p.for_address then
        some (Except.error GovernorError.ProposalNotAccepted, s, [])
      else if t_ok then
        some (Except.ok (),
          { s with proposals := s.proposals.insert id { p with executed := true } },
          [(p.to_addr, p.amount)])
      else
        some (Except.error GovernorError.TransferError, s, [(p.to_addr, p.amount)]) := by
  unfold VotingContract.execute
  rw [hp]
  simp only [hex, Bool.false_eq_true, if_false, if_neg ht, hv]

/-- Any non-panicking `execute` leaves `proposal_votes` and the id counter
unchanged and preserves which proposal ids are populated. -/
theorem execute_post (s : VotingContract) (now : Timestamp)
    (bal : AccountId → AccountId → Balance) (t_ok : Bool) (id : ProposalId)
    (r : Except GovernorError Unit) (s2 : VotingContract) (ts : List (AccountId × Balance))
    (h : s.execute now bal t_ok id = some (r, s2, ts)) :
    s2.proposal_votes = s.proposal_votes ∧ s2.next_proposal_id = s.next_proposal_id ∧
      ∀ i, (s2.proposals.get i).isSome = (s.proposals.get i).isSome := by
  unfold VotingContract.execute at h
  cases hp : s.proposals.get id with
  | none =>
      rw [hp] at h
      simp only [Option.some.injEq, Prod.mk.injEq] at h
      obtain ⟨-, h2, -⟩ := h
      subst h2
      exact ⟨rfl, rfl, fun i => rfl⟩
  | some p =>
      rw [hp] at h
      by_cases hex : p.executed
      · simp only [hex, if_true, Option.some.injEq, Prod.mk.injEq] at h
        obtain ⟨-, h2, -⟩ := h
        subst h2
        exact ⟨rfl, rfl, fun i => rfl⟩
      · simp only [hex, if_false, Bool.false_eq_true] at h
        by_cases htv : now < p.vote_end
        · rw [if_pos htv] at h
          simp only [Option.some.injEq, Prod.mk.injEq] at h
          obtain ⟨-, h2, -⟩ := h
          subst h2
          exact ⟨rfl, rfl, fun i => rfl⟩
        · rw [if_neg htv] at h
          cases hv : s.proposal_votes.get id with
          | none => rw [hv] at h; exact absurd h (by simp)
          | some pv =>
              rw [hv] at h
              by_cases hw : s.account_weight bal p.against_address
                  ≥ s.account_weight bal p.for_address
              · simp only [hw, if_pos, Option.some.injEq, Prod.mk.injEq] at h
                obtain ⟨-, h2, -⟩ := h
                subst h2
                exact ⟨rfl, rfl, fun i => rfl⟩
              · simp only [if_neg hw] at h
                cases t_ok with
                | false =>
                    simp only [if_false, Bool.false_eq_true, Option.some.injEq,
                      Prod.mk.injEq] at h
                    obtain ⟨-, h2, -⟩ := h
                    subst h2
                    exact ⟨rfl, rfl, fun i => rfl⟩
                | true =>
                    simp only [if_true, Option.some.injEq, Prod.mk.injEq] at h
                    obtain ⟨-, h2, -⟩ := h
                    subst h2
                    refine ⟨rfl, rfl, fun i => ?_⟩
                    show ((s.proposals.insert id { p with executed := true }).get i).isSome
                      = (s.proposals.get i).isSome
                    rw [Mapping.get_insert]
                    by_cases hik : id = i
                    · subst hik
                      rw [if_pos rfl, hp]
                      rfl
                    · rw [if_neg hik]

/-- No mutating public call ever writes to the `proposal_votes` mapping. -/
theorem step_proposal_votes (s : VotingContract) (op : Op) :
    (step s op).proposal_votes = s.proposal_votes := by
  cases op with
  | propose now fa aa t0 ti de amount duration =>
      show ((s.propose now fa aa t0 ti de amount duration).2).proposal_votes
        = s.proposal_votes
      by_cases ha : amount = 0
      · subst ha; rw [propose_amount_zero]
      · by_cases hd : duration = 0 ∨ duration > 60 * ONE_MINUTE
        · rw [propose_duration_err s now fa aa t0 ti de amount duration ha hd]
        · rw [propose_ok s now fa aa t0 ti de amount duration ha hd]
  | execute now bal t_ok id =>
      show (match s.execute now bal t_ok id with
            | none => s
            | some (_, s2, _) => s2).proposal_votes = s.proposal_votes
      cases hE : s.execute now bal t_ok id with
      | none => rfl
      | some x =>
          exact (execute_post s now bal t_ok id x.1 x.2.1 x.2.2 (by rw [hE])).1

/-- One step advances the id counter by exactly the number of ids the operation
allocates (1 for a validating `propose`, 0 otherwise). -/
theorem step_next (s : VotingContract) (op : Op) :
    (step s op).next_proposal_id = s.next_proposal_id + op.allocates := by
  cases op with
  | propose now fa aa t0 ti de amount duration =>
      show ((s.propose now fa aa t0 ti de amount duration).2).next_proposal_id
        = s.next_proposal_id + Op.allocates (Op.propose now fa aa t0 ti de amount duration)
      by_cases ha : amount = 0
      · subst ha
        rw [propose_amount_zero]
        simp [Op.allocates]
      · by_cases hd : duration = 0 ∨ duration > 60 * ONE_MINUTE
        · rw [propose_duration_err s now fa aa t0 ti de amount duration ha hd]
          have : ¬(amount ≠ 0 ∧ duration ≠ 0 ∧ duration ≤ 60 * ONE_MINUTE) := by
            rcases hd with h0 | hm
            · exact fun hc => hc.2.1 h0
            · exact fun hc => absurd hc.2.2 (Nat.not_le.mpr hm)
          simp [Op.allocates, this]
        · rw [propose_ok s now fa aa t0 ti de amount duration ha hd]
          push_neg at hd
          have : amount ≠ 0 ∧ duration ≠ 0 ∧ duration ≤ 60 * ONE_MINUTE :=
            ⟨ha, hd.1, hd.2⟩
          simp [Op.allocates, this]
  | execute now bal t_ok id =>
      show (match s.execute now bal t_ok id with
            | none => s
            | some (_, s2, _) => s2).next_proposal_id
        = s.next_proposal_id + Op.allocates (Op.execute now bal t_ok id)
      cases hE : s.execute now bal t_ok id with
      | none => rfl
      | some x =>
          have := (execute_post s now bal t_ok id x.1 x.2.1 x.2.2 (by rw [hE])).2.1
          simpa [Op.allocates] using this

/-- One step preserves dense id allocation: exactly ids `0, …, counter - 1` are
populated. -/
theorem step_dense (s : VotingContract) (op : Op)
    (h : ∀ i, ((s.proposals.get i).isSome = true ↔ i < s.next_proposal_id)) :
    ∀ i, (((step s op).proposals.get i).isSome = true ↔ i < (step s op).next_proposal_id) := by
  intro i
  rw [step_next]
  cases op with
  | propose now fa aa t0 ti de amount duration =>
      by_cases ha : amount = 0
      · subst ha
        show (((s.propose now fa aa t0 ti de 0 duration).2).proposals.get i).isSome = true ↔ _
        rw [propose_amount_zero]
        simp [Op.allocates, h i]
      · by_cases hd : duration = 0 ∨ duration > 60 * ONE_MINUTE
        · show (((s.propose now fa aa t0 ti de amount duration).2).proposals.get i).isSome
            = true ↔ _
          rw [propose_duration_err s now fa aa t0 ti de amount duration ha hd]
          have hval : ¬(amount ≠ 0 ∧ duration ≠ 0 ∧ duration ≤ 60 * ONE_MINUTE) := by
            rcases hd with h0 | hm
            · exact fun hc => hc.2.1 h0
            · exact fun hc => absurd hc.2.2 (Nat.not_le.mpr hm)
          simp [Op.allocates, hval, h i]
        · show (((s.propose now fa aa t0 ti de amount duration).2).proposals.get i).isSome
            = true ↔ _
          rw [propose_ok s now fa aa t0 ti de amount duration ha hd]
          push_neg at hd
          have hval : amount ≠ 0 ∧ duration ≠ 0 ∧ duration ≤ 60 * ONE_MINUTE :=
            ⟨ha, hd.1, hd.2⟩
          simp only [Op.allocates, if_pos hval]
          show ((s.proposals.insert s.next_proposal_id _).get i).isSome = true ↔
            i < s.next_proposal_id + 1
          rw [Mapping.get_insert]
          by_cases hik : s.next_proposal_id = i
          · subst hik
            simp
          · rw [if_neg hik]
            rw [h i]
            omega
  | execute now bal t_ok id =>
      show ((match s.execute now bal t_ok id with
            | none => s
            | some (_, s2, _) => s2).proposals.get i).isSome = true ↔ _
      cases hE : s.execute now bal t_ok id with
      | none => simpa [Op.allocates] using h i
      | some x =>
          have hpost := execute_post s now bal t_ok id x.1 x.2.1 x.2.2 (by rw [hE])
          rw [hpost.2.2 i]
          simpa [Op.allocates] using h i

/-- `proposal_votes` is invariant under any sequence of mutating calls. -/
theorem applyOps_proposal_votes (ops : List Op) :
    ∀ s : VotingContract, (applyOps s ops).proposal_votes = s.proposal_votes := by
  induction ops with
  | nil => intro s; rfl
  | cons op ops ih =>
      intro s
      show (applyOps (step s op) ops).proposal_votes = s.proposal_votes
      rw [ih (step s op), step_proposal_votes]

/-- Along any trace the id counter grows by exactly the number of validating
`propose` calls. -/
theorem applyOps_next (ops : List Op) :
    ∀ s : VotingContract,
      (applyOps s ops).next_proposal_id = s.next_proposal_id + allocatedIds ops := by
  induction ops with
  | nil => intro s; simp [allocatedIds, applyOps]
  | cons op ops ih =>
      intro s
      show (applyOps (step s op) ops).next_proposal_id = _
      rw [ih (step s op), step_next]
      simp [allocatedIds]
      omega

/-- Dense id allocation is preserved along any trace. -/
theorem applyOps_dense (ops : List Op) :
    ∀ s : VotingContract,
      (∀ i, ((s.proposals.get i).isSome = true ↔ i < s.next_proposal_id)) →
      ∀ i, (((applyOps s ops).proposals.get i).isSome = true
        ↔ i < (applyOps s ops).next_proposal_id) := by
  induction ops with
  | nil => intro s h; exact h
  | cons op ops ih =>
      intro s h
      exact ih (step s op) (step_dense s op h)

/-- Claim C1 (refuted by the code — evaluation at the failing input): the claim
says the `proposal_votes.get(id).unwrap()` in `execute` and `get_proposal_vote`
is unreachable for ids created by a successful `propose`.  In fact `propose`
never initializes the vote-tracking record, so on the reachable state
`exampleState` (one successful `propose`, id 0) both an `execute` that passes
the existence, executed and timing checks and a `get_proposal_vote` hit the
failing unwrap and panic (`none` in this embedding). -/
theorem claim_C1_unwrap_panics :
    exampleState.execute (10 * ONE_MINUTE) exampleOracle true 0 = none
      ∧ exampleState.get_proposal_vote exampleOracle 0 = none :=
  ⟨rfl, rfl⟩

/-- Claim C2 (refuted by the code — evaluation at the failing input): a
successful `propose` does store the new proposal with `executed = false` (first
conjunct), but it does not initialize any vote-tracking record: the
`proposal_votes` lookup of the freshly allocated id 0 yields `none` (second
conjunct), contradicting the claim's "also initializes an empty/default
vote-tracking record". -/
theorem claim_C2_vote_record_not_initialized :
    exampleState.proposals.get 0
      = some { for_address := 1, against_address := 2, to_addr := 3, title := "t",
               description := "d", amount := 100, vote_start := 0,
               vote_end := 10 * ONE_MINUTE, executed := false }
      ∧ exampleState.proposal_votes.get 0 = none :=
  ⟨rfl, rfl⟩

/-- Claim C3: whenever `execute` reaches the fund transfer (proposal present and
unexecuted, window ended, vote record present, tally strictly favours "for")
and the transfer fails, the call returns `TransferError`, the persisted state is
exactly the pre-state, and in particular the stored proposal's `executed` flag
is still `false`, so a retry re-evaluates from scratch. -/
theorem claim_C3_transfer_failure_keeps_state (s : VotingContract) (now : Timestamp)
    (bal : AccountId → AccountId → Balance) (id : ProposalId) (p : Proposal)
    (pv : ProposalVote)
    (hp : s.proposals.get id = some p) (hex : p.executed = false)
    (ht : ¬ now < p.vote_end) (hv : s.proposal_votes.get id = some pv)
    (hw : s.account_weight bal p.against_address < s.account_weight bal p.for_address) :
    s.execute now bal false id
        = some (Except.error GovernorError.TransferError, s, [(p.to_addr, p.amount)])
      ∧ (s.proposals.get id).map Proposal.executed = some false := by
  constructor
  · rw [execute_ready s now bal false id p pv hp hex ht hv]
    rw [if_neg (Nat.not_le.mpr hw)]
    rfl
  · rw [hp]
    show some p.executed = some false
    rw [hex]

/-- Claim C3 witness: a failing transfer on `demoState` returns `TransferError`
with the state untouched. -/
theorem claim_C3_witness :
    demoState.execute 10 demoOracle false 0
        = some (Except.error GovernorError.TransferError, demoState, [(3, 5)])
      ∧ (demoState.proposals.get 0).map Proposal.executed = some false :=
  claim_C3_transfer_failure_keeps_state demoState 10 demoOracle 0 demoProposal
    { against_votes := 0, for_votes := 0 } rfl rfl (by decide) rfl (by decide)

/-- Claim C4 counterexample: the claim says `propose` fails with `DurationError`
exactly when `duration = 0` or `duration > 60 · ONE_MINUTE`.  With `amount = 0`
and `duration = 0` the amount check fires first, so the call fails with
`AmountShouldNotBeZero`, not `DurationError`, although `duration = 0`. -/
theorem claim_C4_cex :
    ((VotingContract.new 0).propose 0 1 2 3 "t" "d" 0 0).1
        = Except.error GovernorError.AmountShouldNotBeZero
      ∧ ((VotingContract.new 0).propose 0 1 2 3 "t" "d" 0 0).1
        ≠ Except.error GovernorError.DurationError :=
  ⟨rfl, by decide⟩

/-- Claim C4 (amended): for every call with `amount ≠ 0`, `propose` fails with
`DurationError` exactly when `duration = 0` or `duration > 60 · ONE_MINUTE`;
every duration in `1 ..= 60 · ONE_MINUTE` passes the check. -/
theorem claim_C4_duration_error_iff (s : VotingContract) (now : Timestamp)
    (fa aa t0 : AccountId) (ti de : String) (amount : Balance) (duration : Nat)
    (ha : amount ≠ 0) :
    (s.propose now fa aa t0 ti de amount duration).1
        = Except.error GovernorError.DurationError
      ↔ (duration = 0 ∨ duration > 60 * ONE_MINUTE) := by
  by_cases hd : duration = 0 ∨ duration > 60 * ONE_MINUTE
  · rw [propose_duration_err s now fa aa t0 ti de amount duration ha hd]
    simpa using hd
  · rw [propose_ok s now fa aa t0 ti de amount duration ha hd]
    simp [hd]

/-- Claim C4 witness: with `amount = 1` and `duration = 0` the biconditional
holds at a concrete input. -/
theorem claim_C4_witness :
    ((VotingContract.new 0).propose 0 1 2 3 "t" "d" 1 0).1
        = Except.error GovernorError.DurationError
      ↔ (0 = 0 ∨ 0 > 60 * ONE_MINUTE) :=
  claim_C4_duration_error_iff (VotingContract.new 0) 0 1 2 3 "t" "d" 1 0 (by decide)

/-- Claim C5 counterexample: on the reachable state `tieState` (both tally
addresses equal, so the tally is a tie) the claim says `execute` past the window
returns `ProposalNotAccepted` (a tie rejects); instead the call panics on the
missing vote-tracking record (`none`), because it never returns at all. -/
theorem claim_C5_cex :
    tieState.execute ONE_MINUTE zeroOracle true 0 = none := rfl

/-- Claim C5 (amended): `execute` checks its failure conditions in the order
`ProposalNotFound`, `ProposalAlreadyExecuted`, `VotePeriodNotEnded`; then —
provided the vote-tracking record exists, otherwise the lookup panics —
`ProposalNotAccepted` when `against_weight ≥ for_weight` (a tie rejects); and it
attempts the transfer only when none of these hold and the record exists. -/
theorem claim_C5_error_order (s : VotingContract) (now : Timestamp)
    (bal : AccountId → AccountId → Balance) (t_ok : Bool) (id : ProposalId) :
    (s.proposals.get id = none →
        s.execute now bal t_ok id
          = some (Except.error GovernorError.ProposalNotFound, s, []))
    ∧ (∀ p, s.proposals.get id = some p → p.executed = true →
        s.execute now bal t_ok id
          = some (Except.error GovernorError.ProposalAlreadyExecuted, s, []))
    ∧ (∀ p, s.proposals.get id = some p → p.executed = false → now < p.vote_end →
        s.execute now bal t_ok id
          = some (Except.error GovernorError.VotePeriodNotEnded, s, []))
    ∧ (∀ p, s.proposals.get id = some p → p.executed = false → ¬ now < p.vote_end →
        s.proposal_votes.get id = none → s.execute now bal t_ok id = none)
    ∧ (∀ p pv, s.proposals.get id = some p → p.executed = false → ¬ now < p.vote_end →
        s.proposal_votes.get id = some pv →
        s.account_weight bal p.for_address ≤ s.account_weight bal p.against_address →
        s.execute now bal t_ok id
          = some (Except.error GovernorError.ProposalNotAccepted, s, []))
    ∧ (∀ r s2 ts, s.execute now bal t_ok id = some (r, s2, ts) → ts ≠ [] →
        ∃ p pv, s.proposals.get id = some p ∧ p.executed = false ∧ ¬ now < p.vote_end ∧
          s.proposal_votes.get id = some pv ∧
          s.account_weight bal p.against_address < s.account_weight bal p.for_address) := by
  refine ⟨?_, ?_, ?_, ?_, ?_, ?_⟩
  · intro hp
    unfold VotingContract.execute
    rw [hp]
  · intro p hp hex
    unfold VotingContract.execute
    rw [hp]
    simp only [hex, if_true]
  · intro p hp hex htv
    unfold VotingContract.execute
    rw [hp]
    simp only [hex, Bool.false_eq_true, if_false, if_pos htv]
  · intro p hp hex htv hv
    unfold VotingContract.execute
    rw [hp]
    simp only [hex, Bool.false_eq_true, if_false, if_neg htv, hv]
  · intro p pv hp hex htv hv hw
    rw [execute_ready s now bal t_ok id p pv hp hex htv hv]
    rw [if_pos hw]
  · intro r s2 ts h hts
    unfold VotingContract.execute at h
    cases hp : s.proposals.get id with
    | none =>
        rw [hp] at h
        simp only [Option.some.injEq, Prod.mk.injEq] at h
        exact absurd h.2.2.symm hts
    | some p =>
        rw [hp] at h
        by_cases hex : p.executed
        · simp only [hex, if_true, Option.some.injEq, Prod.mk.injEq] at h
          exact absurd h.2.2.symm hts
        · simp only [hex, if_false, Bool.false_eq_true] at h
          by_cases htv : now < p.vote_end
          · rw [if_pos htv] at h
            simp only [Option.some.injEq, Prod.mk.injEq] at h
            exact absurd h.2.2.symm hts
          · rw [if_neg htv] at h
            cases hv : s.proposal_votes.get id with
            | none => rw [hv] at h; exact absurd h (by simp)
            | some pv =>
                rw [hv] at h
                by_cases hw : s.account_weight bal p.against_address
                    ≥ s.account_weight bal p.for_address
                · rw [if_pos hw] at h
                  simp only [Option.some.injEq, Prod.mk.injEq] at h
                  exact absurd h.2.2.symm hts
                · exact ⟨p, pv, rfl, Bool.not_eq_true _ ▸ hex, htv, rfl, Nat.not_le.mp hw⟩

/-- Claim C5 witness: `execute` on an unknown id fails with `ProposalNotFound`. -/
theorem claim_C5_witness :
    (VotingContract.new 0).execute 0 zeroOracle true 0
      = some (Except.error GovernorError.ProposalNotFound, VotingContract.new 0, []) :=
  (claim_C5_error_order (VotingContract.new 0) 0 zeroOracle true 0).1 rfl

/-- Claim C6 counterexample: on the reachable state `acceptState` with
`for_weight = 1 > 0 = against_weight` past the window and a succeeding transfer,
the claim says the transfer is invoked once and `executed` becomes `true`;
instead the call panics on the missing vote-tracking record (`none`): no
transfer happens and nothing is persisted. -/
theorem claim_C6_cex :
    acceptState.execute ONE_MINUTE demoOracle true 0 = none := rfl

/-- Claim C6 (amended): on an existing, unexecuted proposal past its window, with
`for_weight > against_weight`, a succeeding transfer, and — as the missing
precondition forced by the counterexample — the vote-tracking record present,
`execute` attempts the transfer exactly once with exactly the stored `amount`
and beneficiary, and the persisted record ends with `executed = true`. -/
theorem claim_C6_accept_transfers_once (s : VotingContract) (now : Timestamp)
    (bal : AccountId → AccountId → Balance) (id : ProposalId) (p : Proposal)
    (pv : ProposalVote)
    (hp : s.proposals.get id = some p) (hex : p.executed = false)
    (ht : ¬ now < p.vote_end) (hv : s.proposal_votes.get id = some pv)
    (hw : s.account_weight bal p.against_address < s.account_weight bal p.for_address) :
    s.execute now bal true id
        = some (Except.ok (),
            { s with proposals := s.proposals.insert id { p with executed := true } },
            [(p.to_addr, p.amount)])
      ∧ ({ s with proposals := s.proposals.insert id { p with executed := true }
            : VotingContract }).proposals.get id = some { p with executed := true } := by
  constructor
  · rw [execute_ready s now bal true id p pv hp hex ht hv]
    rw [if_neg (Nat.not_le.mpr hw)]
    rfl
  · show (s.proposals.insert id { p with executed := true }).get id = _
    rw [Mapping.get_insert, if_pos rfl]

/-- Claim C6 witness: a succeeding transfer on `demoState` moves 5 units to
address 3 exactly once and persists `executed = true`. -/
theorem claim_C6_witness :
    demoState.execute 10 demoOracle true 0
        = some (Except.ok (),
            { demoState with
                proposals := demoState.proposals.insert 0
                  { demoProposal with executed := true } },
            [(3, 5)])
      ∧ ({ demoState with
            proposals := demoState.proposals.insert 0
              { demoProposal with executed := true } : VotingContract }).proposals.get 0
          = some { demoProposal with executed := true } :=
  claim_C6_accept_transfers_once demoState 10 demoOracle 0 demoProposal
    { against_votes := 0, for_votes := 0 } rfl rfl (by decide) rfl (by decide)

/-- Claim C7: the weight used in tally computation is the oracle balance
truncated to its low 8 bits (`% 256`): `get_proposal_vote` returns exactly the
two truncated balances freshly queried from the oracle (no stored value enters
the result, so every call re-queries), `account_weight` is that truncation, and
`execute` rejects with `ProposalNotAccepted` precisely when the truncated "for"
balance does not exceed the truncated "against" balance. -/
theorem claim_C7_weight_is_balance_mod_256 (s : VotingContract)
    (bal : AccountId → AccountId → Balance) (id : ProposalId) (p : Proposal)
    (pv : ProposalVote)
    (hp : s.proposals.get id = some p) (hv : s.proposal_votes.get id = some pv) :
    s.get_proposal_vote bal id
        = some (some { against_votes := bal s.governance_token p.against_address % 256,
                       for_votes := bal s.governance_token p.for_address % 256 })
      ∧ (∀ a, s.account_weight bal a = bal s.governance_token a % 256)
      ∧ (∀ now t_ok, p.executed = false → ¬ now < p.vote_end →
          (s.execute now bal t_ok id
              = some (Except.error GovernorError.ProposalNotAccepted, s, [])
            ↔ bal s.governance_token p.for_address % 256
                ≤ bal s.governance_token p.against_address % 256)) := by
  refine ⟨?_, fun a => rfl, ?_⟩
  · unfold VotingContract.get_proposal_vote
    rw [hp, hv]
    rfl
  · intro now t_ok hex htv
    rw [execute_ready s now bal t_ok id p pv hp hex htv hv]
    by_cases hw : s.account_weight bal p.against_address
        ≥ s.account_weight bal p.for_address
    · rw [if_pos hw]
      exact ⟨fun _ => hw, fun _ => rfl⟩
    · rw [if_neg hw]
      constructor
      · intro h
        cases t_ok with
        | true => simp at h
        | false => simp at h
      · intro h
        exact absurd h hw

/-- Claim C7 witness: on `demoState` with `demoOracle`, the tally is the
truncated balances (1 for, 0 against). -/
theorem claim_C7_witness :
    demoState.get_proposal_vote demoOracle 0
      = some (some { against_votes := 0, for_votes := 1 }) :=
  (claim_C7_weight_is_balance_mod_256 demoState demoOracle 0 demoProposal
    { against_votes := 0, for_votes := 0 } rfl rfl).1

/-- Claim C8: a successful `propose` at clock reading `now` with duration `d`
stores a proposal with `vote_start = now` and
`vote_end = now + d · ONE_MINUTE` (the chain-time unit), e.g. `d = 10` gives
`vote_end = now + 10 · ONE_MINUTE`. -/
theorem claim_C8_vote_window (s : VotingContract) (now : Timestamp)
    (fa aa t0 : AccountId) (ti de : String) (amount : Balance) (duration : Nat)
    (ha : amount ≠ 0) (hd0 : duration ≠ 0) (hdm : duration ≤ 60 * ONE_MINUTE) :
    (s.propose now fa aa t0 ti de amount duration).1 = Except.ok ()
      ∧ (s.propose now fa aa t0 ti de amount duration).2.proposals.get s.next_proposal_id
          = some { for_address := fa, against_address := aa, to_addr := t0, title := ti,
                   description := de, amount := amount, vote_start := now,
                   vote_end := now + duration * ONE_MINUTE, executed := false } := by
  have hd : ¬(duration = 0 ∨ duration > 60 * ONE_MINUTE) :=
    fun h => h.elim hd0 (fun h2 => absurd hdm (Nat.not_le.mpr h2))
  rw [propose_ok s now fa aa t0 ti de amount duration ha hd]
  refine ⟨rfl, ?_⟩
  show (s.proposals.insert s.next_proposal_id _).get s.next_proposal_id = _
  rw [Mapping.get_insert, if_pos rfl]

/-- Claim C8 witness: the spec's example — `duration = 10` at time 0 yields
`vote_end = 0 + 10 · ONE_MINUTE`. -/
theorem claim_C8_witness :
    ((VotingContract.new 0).propose 0 1 2 3 "t" "d" 100 10).1 = Except.ok ()
      ∧ ((VotingContract.new 0).propose 0 1 2 3 "t" "d" 100 10).2.proposals.get
          (VotingContract.new 0).next_proposal_id
          = some { for_address := 1, against_address := 2, to_addr := 3, title := "t",
                   description := "d", amount := 100, vote_start := 0,
                   vote_end := 0 + 10 * ONE_MINUTE, executed := false } :=
  claim_C8_vote_window (VotingContract.new 0) 0 1 2 3 "t" "d" 100 10
    (by decide) (by decide) (by decide)

/-- Claim C9: from the constructor, after any sequence of mutating calls, the
reported size equals the number of validating `propose` calls in the trace;
exactly the ids below the size are populated (dense from 0, no gaps or reuse);
a `propose` with `amount = 0` fails with `AmountShouldNotBeZero` consuming no
id; and each validating `propose` bumps the counter by exactly 1, populating the
old counter value. -/
theorem claim_C9_dense_ids (t : AccountId) (ops : List Op) :
    (applyOps (VotingContract.new t) ops).get_proposals_size = allocatedIds ops
      ∧ (∀ i, (((applyOps (VotingContract.new t) ops).proposals.get i).isSome = true
          ↔ i < (applyOps (VotingContract.new t) ops).get_proposals_size))
      ∧ (∀ (s : VotingContract) (now : Timestamp) (fa aa t0 : AccountId) (ti de : String)
            (dur : Nat),
          s.propose now fa aa t0 ti de 0 dur
            = (Except.error GovernorError.AmountShouldNotBeZero, s))
      ∧ (∀ (s : VotingContract) (now : Timestamp) (fa aa t0 : AccountId) (ti de : String)
            (amount : Balance) (dur : Nat), amount ≠ 0 → dur ≠ 0 → dur ≤ 60 * ONE_MINUTE →
          (s.propose now fa aa t0 ti de amount dur).2.next_proposal_id
              = s.next_proposal_id + 1
            ∧ ((s.propose now fa aa t0 ti de amount dur).2.proposals.get
                s.next_proposal_id).isSome = true) := by
  refine ⟨?_, ?_, ?_, ?_⟩
  · show (applyOps (VotingContract.new t) ops).next_proposal_id = allocatedIds ops
    rw [applyOps_next]
    exact Nat.zero_add _
  · intro i
    show ((applyOps (VotingContract.new t) ops).proposals.get i).isSome = true
      ↔ i < (applyOps (VotingContract.new t) ops).next_proposal_id
    exact applyOps_dense ops (VotingContract.new t)
      (fun j => by simp [VotingContract.new, Mapping.new, Mapping.get]) i
  · intro s now fa aa t0 ti de dur
    exact propose_amount_zero s now fa aa t0 ti de dur
  · intro s now fa aa t0 ti de amount dur ha hd0 hdm
    have hd : ¬(dur = 0 ∨ dur > 60 * ONE_MINUTE) :=
      fun h => h.elim hd0 (fun h2 => absurd hdm (Nat.not_le.mpr h2))
    rw [propose_ok s now fa aa t0 ti de amount dur ha hd]
    refine ⟨rfl, ?_⟩
    show ((s.proposals.insert s.next_proposal_id _).get s.next_proposal_id).isSome = true
    rw [Mapping.get_insert, if_pos rfl]
    rfl

/-- Claim C9 witness: one validating `propose` from the fresh contract bumps the
counter from 0 to 1. -/
theorem claim_C9_witness :
    ((VotingContract.new 0).propose 0 1 2 3 "t" "d" 100 10).2.next_proposal_id
      = (VotingContract.new 0).next_proposal_id + 1 :=
  ((claim_C9_dense_ids 0 []).2.2.2 (VotingContract.new 0) 0 1 2 3 "t" "d" 100 10
    (by decide) (by decide) (by decide)).1

/-- Claim C10: in every state reachable from the constructor by any sequence of
mutating public calls (`propose`/`execute`; the remaining messages take `&self`
and cannot write), the `proposal_votes` mapping is still empty — no operation
ever inserts into it, and the tallies `execute` and `get_proposal_vote` compute
live only in a local copy. -/
theorem claim_C10_votes_mapping_stays_empty (t : AccountId) (ops : List Op) :
    (applyOps (VotingContract.new t) ops).proposal_votes = Mapping.new
      ∧ (∀ (s : VotingContract) (op : Op),
          (step s op).proposal_votes = s.proposal_votes) := by
  refine ⟨?_, step_proposal_votes⟩
  rw [applyOps_proposal_votes]
  rfl
